import Mathlib

/-!
Shallow embedding of `src/pract_2/vkapi.py` (class `VkApiAgent`):
the two response hooks `_handle_execute_errors` and `_handle_api_errors`,
the dispatch loop `_retry_wrapper`, and the domain methods `execute`,
`get_users_ids` and `get_friends`.

Python's dynamic values are modelled by a `Json` type (what `r.json()`
yields), Python exceptions by `PyExc`, and fallible Python expressions by
`Except PyExc`.  A `requests` response is a record of its (mutable)
`status_code` and `reason` plus its body; a body that is not valid JSON is
`none` (so `r.json()` raises a JSON decode error on it).  The error table
`api_errors.yaml` is an association list from integer error code to
`{action, MatchedHTTPError}`.  Time is not modelled: `time.sleep(wait)`
is recorded by appending `wait` (an exact rational) to a delay trace.
-/

namespace VkApi

/-- A decoded JSON value, as produced by `r.json()`. -/
inductive Json where
  | null
  | bool (b : Bool)
  | num (n : Int)
  | str (s : String)
  | arr (elems : List Json)
  | obj (fields : List (String × Json))

/-- The Python exceptions the code can raise or catch: `KeyError`,
`TypeError`, the JSON decode error raised by `r.json()` on an unparseable
body, `AssertionError` from `assert False, msg`, and `SystemExit`
(with its optional argument). -/
inductive PyExc where
  | keyError
  | typeError
  | jsonDecodeError
  | assertionError (msg : String)
  | systemExit (arg : Option String)
deriving Repr, DecidableEq

/-- A transport response: the effective `status_code`/`reason` pair the
hooks may overwrite, plus the decoded body (`none` = body that fails JSON
decoding).  `reason` is a `Json` because Python lets the hooks assign any
value from the body to `r.reason`. -/
structure Response where
  status_code : Int
  reason : Json
  body : Option Json

/-- `r.json()`: returns the decoded body or raises the decode error. -/
def Response.json (r : Response) : Except PyExc Json :=
  match r.body with
  | some j => .ok j
  | none => .error .jsonDecodeError

/-- Python subscription `j[k]` with a string key: `KeyError` when an
object lacks the key, `TypeError` on any non-object. -/
def Json.get : Json → String → Except PyExc Json
  | .obj fields, k =>
    match fields.lookup k with
    | some v => .ok v
    | none => .error .keyError
  | _, _ => .error .typeError

/-- Python iteration `for x in j`: lists yield their elements, dicts their
keys, strings their characters; other values raise `TypeError`. -/
def Json.iter : Json → Except PyExc (List Json)
  | .arr xs => .ok xs
  | .obj fields => .ok (fields.map (fun kv => Json.str kv.1))
  | .str s => .ok (s.data.map (fun c => Json.str (String.mk [c])))
  | _ => .error .typeError

/-- Python `len(j)`: `TypeError` on unsized values. -/
def Json.len : Json → Except PyExc Nat
  | .arr xs => .ok xs.length
  | .obj fields => .ok fields.length
  | .str s => .ok s.length
  | _ => .error .typeError

/-- One entry of `api_errors.yaml`: an action (`"break"`, `"retry"` or
`"skip"`) and the HTTP status it is mapped to. -/
structure ErrorRule where
  action : String
  MatchedHTTPError : Int
deriving Repr, DecidableEq

/-- `self.api_errors`: the configuration dict keyed by integer error code. -/
abbrev ErrorTable := List (Int × ErrorRule)

/-- Dict lookup `self.api_errors[c]` with an integer key. -/
def tableGet (t : ErrorTable) (c : Int) : Except PyExc ErrorRule :=
  match t.lookup c with
  | some rule => .ok rule
  | none => .error .keyError

/-- The integer a JSON value hashes to as a Python dict key, when it can
match an integer key at all (`True == 1` and `False == 0` in Python). -/
def jsonKey : Json → Option Int
  | .num n => some n
  | .bool b => some (if b then 1 else 0)
  | _ => none

/-- Dict lookup `self.api_errors[j]` with a key taken from the body:
unhashable values (lists, dicts) raise `TypeError`, hashable values that
match no integer key raise `KeyError`. -/
def tableGetJ (t : ErrorTable) (j : Json) : Except PyExc ErrorRule :=
  match j with
  | .arr _ => .error .typeError
  | .obj _ => .error .typeError
  | _ =>
    match jsonKey j with
    | some c => tableGet t c
    | none => .error .keyError

/-- Python `j in self.api_errors`: `TypeError` on unhashable keys,
otherwise whether the key is present. -/
def dictContains (t : ErrorTable) (j : Json) : Except PyExc Bool :=
  match j with
  | .arr _ => .error .typeError
  | .obj _ => .error .typeError
  | _ =>
    match jsonKey j with
    | some c => .ok (t.lookup c).isSome
    | none => .ok false

/-- `(err["error_code"], err["error_msg"])` for one entry of
`execute_errors`. -/
def extractPair (err : Json) : Except PyExc (Json × Json) := do
  let c ← err.get "error_code"
  let m ← err.get "error_msg"
  pure (c, m)

/-- The first `for err_code, err_msg in err_pairs` loop of
`_handle_execute_errors`: it scans correctly for the first pair whose
action is `"break"` and rewrites status/reason from that pair. -/
def scanBreak (t : ErrorTable) (r : Response) :
    List (Json × Json) → Except PyExc (Option Response)
  | [] => .ok none
  | (c, m) :: rest => do
    let rule ← tableGetJ t c
    if rule.action = "break" then
      .ok (some { r with status_code := rule.MatchedHTTPError, reason := m })
    else
      scanBreak t r rest

/-- The second and third loops of `_handle_execute_errors`.  Their bodies
read `err_code`/`err_msg`, the variables left over from the first loop
(the LAST pair of the list), not their own loop variables
`error_code`/`error_msg`; so each iteration re-tests the last pair and,
on a match, rewrites status/reason from the last pair. -/
def loopLeftover (t : ErrorTable) (r : Response) (lc lm : Json) (act : String) :
    List (Json × Json) → Except PyExc (Option Response)
  | [] => .ok none
  | _ :: rest => do
    let rule ← tableGetJ t lc
    if rule.action = act then
      .ok (some { r with status_code := rule.MatchedHTTPError, reason := lm })
    else
      loopLeftover t r lc lm act rest

/-- The `try:` body of `_handle_execute_errors` (lines 30-54). -/
def handleExecuteErrorsTry (t : ErrorTable) (r : Response) :
    Except PyExc Response := do
  let j ← r.json
  let errors ← j.get "execute_errors"
  let errList ← errors.iter
  let err_pairs ← errList.mapM extractPair
  let _actions ← err_pairs.mapM (fun p => do
    let rule ← tableGetJ t p.1
    pure rule.action)
  let _http_errors ← err_pairs.mapM (fun p => do
    let rule ← tableGetJ t p.1
    pure rule.MatchedHTTPError)
  match ← scanBreak t r err_pairs with
  | some r2 => pure r2
  | none =>
    match err_pairs.getLast? with
    | none => .error (.assertionError "Unexpected error")
    | some (lc, lm) =>
      match ← loopLeftover t r lc lm "retry" err_pairs with
      | some r2 => pure r2
      | none =>
        match ← loopLeftover t r lc lm "skip" err_pairs with
        | some r2 => pure r2
        | none => .error (.assertionError "Unexpected error")

/-- `_handle_execute_errors`: the try body under `except KeyError as e:
return r`.  Only `KeyError` is caught; every other exception (JSON decode
errors, `TypeError`, the `assert False`) propagates to the caller of the
request. -/
def handleExecuteErrors (t : ErrorTable) (r : Response) :
    Except PyExc Response :=
  match handleExecuteErrorsTry t r with
  | .ok r2 => .ok r2
  | .error .keyError => .ok r
  | .error e => .error e

/-- The `try:` body of `_handle_api_errors` (lines 61-69), before the
`except`/`finally` clauses are applied. -/
def handleApiErrorsTry (t : ErrorTable) (r : Response) :
    Except PyExc Response := do
  let j1 ← r.json
  let errObj1 ← j1.get "error"
  let err_code ← errObj1.get "error_code"
  let j2 ← r.json
  let errObj2 ← j2.get "error"
  let err_msg ← errObj2.get "error_msg"
  let mem ← dictContains t err_code
  if mem then do
    let rule ← tableGetJ t err_code
    pure { r with status_code := rule.MatchedHTTPError, reason := err_msg }
  else
    .error (.assertionError "Unexpected err_code")

/-- `_handle_api_errors`: because the `finally:` clause executes
`return r`, every in-flight exception — the caught `(AttributeError,
KeyError)` but also the `AssertionError` from the unmapped-code branch and
any decode error — is discarded and the (unmodified) response is returned. -/
def handleApiErrors (t : ErrorTable) (r : Response) : Response :=
  match handleApiErrorsTry t r with
  | .ok r2 => r2
  | .error _ => r

/-- The response-hook chain of the session: `_handle_execute_errors` then
`_handle_api_errors`; an exception from the first hook propagates and the
second never runs. -/
def applyHooks (t : ErrorTable) (r : Response) : Except PyExc Response := do
  let r1 ← handleExecuteErrors t r
  pure (handleApiErrors t r1)

/-- `[self.api_errors[er]["MatchedHTTPError"] for er in self.api_errors
if self.api_errors[er]["action"] == act]`: the HTTP statuses of the rules
carrying a given action. -/
def matchedSet (t : ErrorTable) (act : String) : List Int :=
  (t.filter (fun kv => kv.2.action = act)).map (fun kv => kv.2.MatchedHTTPError)

/-- How one logical call through `_retry_wrapper` ends: a returned
response, `return None` (the skip branch), an uncaught exception
(`SystemExit` from the break/unclassified branches, or anything a hook
raised), or still running when the modelled fuel runs out. -/
inductive DispatchOutcome where
  | success (r : Response)
  | noResult
  | exc (e : PyExc)
  | running

/-- `true` exactly on the `SystemExit` outcomes (process termination). -/
def DispatchOutcome.isSystemExit : DispatchOutcome → Bool
  | .exc (.systemExit _) => true
  | _ => false

/-- `true` exactly on the `success` outcome. -/
def DispatchOutcome.isSuccess : DispatchOutcome → Bool
  | .success _ => true
  | _ => false

/-- What one iteration of the `while not success` loop does after `s.get`
returns (or raises): either the loop is done with an outcome, or it sleeps
`wait` seconds and iterates. -/
inductive StepOut where
  | done (o : DispatchOutcome)
  | sleepRetry (wait : ℚ)

/-- One iteration of `_retry_wrapper`'s loop on a transport response
`resp`, with `retries` errors seen so far.  The hooks rewrite the
response; `r.raise_for_status()` raises `HTTPError` iff the effective
status is in `[400, 600)`; the handler then increments `retries` and tests
the skip set, then the break set (`raise SystemExit`), then the retry set
(sleep `backoff_factor * 2 ** retries` with the incremented counter), and
otherwise runs `raise SystemExit(err)`. -/
def classifyStep (t : ErrorTable) (backoff : ℚ) (retries : Nat)
    (resp : Response) : StepOut :=
  match applyHooks t resp with
  | .error e => .done (.exc e)
  | .ok r =>
    if 400 ≤ r.status_code ∧ r.status_code < 600 then
      if r.status_code ∈ matchedSet t "skip" then
        .done .noResult
      else if r.status_code ∈ matchedSet t "break" then
        .done (.exc (.systemExit none))
      else if r.status_code ∈ matchedSet t "retry" then
        .sleepRetry (backoff * 2 ^ (retries + 1))
      else
        .done (.exc (.systemExit (some "HTTPError")))
    else
      .done (.success r)

/-- The result of `_retry_wrapper`: its outcome, the number of `s.get`
calls made, and the trace of slept delays in order. -/
structure LoopResult where
  outcome : DispatchOutcome
  attempts : Nat
  delays : List ℚ

/-- The `while not success` loop: `stream i` is the transport response of
the `i`-th `s.get`, `fuel` bounds the number of iterations we unfold
(`fuel` exhaustion means the loop is still running), `retries` and the
accumulated (reversed) delay trace are threaded through. -/
def retryLoop (t : ErrorTable) (backoff : ℚ) (stream : Nat → Response) :
    Nat → Nat → Nat → List ℚ → LoopResult
  | 0, idx, _retries, acc => ⟨.running, idx, acc.reverse⟩
  | fuel + 1, idx, retries, acc =>
    match classifyStep t backoff retries (stream idx) with
    | .done o => ⟨o, idx + 1, acc.reverse⟩
    | .sleepRetry w => retryLoop t backoff stream fuel (idx + 1) (retries + 1) (w :: acc)

/-- `_retry_wrapper(method, params, backoff_factor)`: the loop started
with `retries = 0` and an empty delay trace. -/
def retryWrapper (t : ErrorTable) (backoff : ℚ) (stream : Nat → Response)
    (fuel : Nat) : LoopResult :=
  retryLoop t backoff stream fuel 0 0 []

/-- What a domain method returns to its caller: a value, an uncaught
exception (including `SystemExit`), or still-running (loop fuel spent). -/
inductive MethodResult where
  | ok (v : Json)
  | exc (e : PyExc)
  | running

/-- `r.json()["response"]` as evaluated inside `execute`, with each
exception propagating. -/
def executeExtract (r : Response) : Except PyExc Json :=
  match r.json with
  | .error e => .error e
  | .ok j => j.get "response"

/-- `[user["id"] for user in r.json()["response"]]` as evaluated inside
`get_users_ids`, with each exception propagating. -/
def getUsersExtract (r : Response) : Except PyExc (List Json) :=
  match r.json with
  | .error e => .error e
  | .ok j =>
    match j.get "response" with
    | .error e => .error e
    | .ok friends =>
      match friends.iter with
      | .error e => .error e
      | .ok users => users.mapM (fun u => u.get "id")

/-- `friends = r.json()["response"]["items"]` followed by the logged
`len(friends)` as evaluated inside `get_friends`, with each exception
propagating. -/
def getFriendsExtract (r : Response) : Except PyExc Json :=
  match r.json with
  | .error e => .error e
  | .ok j =>
    match j.get "response" with
    | .error e => .error e
    | .ok resp =>
      match resp.get "items" with
      | .error e => .error e
      | .ok items =>
        match items.len with
        | .error e => .error e
        | .ok _ => .ok items

/-- `execute(code)`: dispatches with `backoff_factor = 0.09`; `None`
becomes `[]`; otherwise `r.json()["response"]` is returned, and a missing
`"response"` key raises an uncaught `KeyError`. -/
def execute (t : ErrorTable) (stream : Nat → Response) (fuel : Nat) :
    MethodResult :=
  match (retryWrapper t (9 / 100) stream fuel).outcome with
  | .running => .running
  | .exc e => .exc e
  | .noResult => .ok (Json.arr [])
  | .success r =>
    match executeExtract r with
    | .ok v => .ok v
    | .error e => .exc e

/-- `get_users_ids(screen_names)`: dispatches with `backoff_factor =
0.09`; `None` becomes `[]`; otherwise `[user["id"] for user in
r.json()["response"]]` is returned, a `KeyError` anywhere in that
extraction raises `SystemExit("Unexpected keys in response. ...")`, and
any other exception propagates. -/
def get_users_ids (t : ErrorTable) (stream : Nat → Response) (fuel : Nat) :
    MethodResult :=
  match (retryWrapper t (9 / 100) stream fuel).outcome with
  | .running => .running
  | .exc e => .exc e
  | .noResult => .ok (Json.arr [])
  | .success r =>
    match getUsersExtract r with
    | .ok ids => .ok (Json.arr ids)
    | .error .keyError =>
      .exc (.systemExit (some "Unexpected keys in response. `response` are Expected"))
    | .error e => .exc e

/-- `get_friends(uid)`: dispatches with `backoff_factor = 0.09`; `None`
becomes `[]`; otherwise `r.json()["response"]["items"]` is returned after
`len(friends)` is logged, a `KeyError` raises `SystemExit("Unexpected keys
in response. ...")`, and any other exception propagates. -/
def get_friends (t : ErrorTable) (stream : Nat → Response) (fuel : Nat) :
    MethodResult :=
  match (retryWrapper t (9 / 100) stream fuel).outcome with
  | .running => .running
  | .exc e => .exc e
  | .noResult => .ok (Json.arr [])
  | .success r =>
    match getFriendsExtract r with
    | .ok items => .ok items
    | .error .keyError =>
      .exc (.systemExit (some "Unexpected keys in response. `response.items` are Expected"))
    | .error e => .exc e

/-- The tiered scan as §4.1 of the specification words it (for comparison
with `handleExecuteErrorsTry`): the first pair whose action is Break,
else the first whose action is Retry, else the first whose action is
Skip, yielding that pair's matched HTTP status and message. -/
def specTieredScan (t : ErrorTable) (pairs : List (Json × Json)) :
    Option (Int × Json) :=
  let withAct := fun act =>
    (pairs.filter (fun p =>
      match tableGetJ t p.1 with
      | .ok rule => rule.action = act
      | .error _ => false)).head?
  let pick := fun (p : Json × Json) =>
    match tableGetJ t p.1 with
    | .ok rule => some (rule.MatchedHTTPError, p.2)
    | .error _ => none
  match withAct "break" with
  | some p => pick p
  | none =>
    match withAct "retry" with
    | some p => pick p
    | none =>
      match withAct "skip" with
      | some p => pick p
      | none => none

/-! ### Concrete fixtures used by witnesses and counterexamples -/

/-- Table with a retry rule first but a skip rule last in the response's
embedded error list: `{1: retry/503, 2: skip/404}`. -/
def tblRetrySkip : ErrorTable := [(1, ⟨"retry", 503⟩), (2, ⟨"skip", 404⟩)]

/-- Response embedding two execute errors: code 1 (retry) first, code 2
(skip) second. -/
def respTwoErrs : Response :=
  { status_code := 200, reason := .str "OK",
    body := some (.obj [("execute_errors", .arr
      [ .obj [("error_code", .num 1), ("error_msg", .str "first retry")]
      , .obj [("error_code", .num 2), ("error_msg", .str "second skip")] ])]) }

/-- Table `{1: retry/503}` used where a single mapped rule is enough. -/
def tblRetryOnly : ErrorTable := [(1, ⟨"retry", 503⟩)]

/-- Response embedding one execute error whose code 999 is absent from
any of the tables above. -/
def respUnmapped : Response :=
  { status_code := 200, reason := .str "OK",
    body := some (.obj [("execute_errors", .arr
      [ .obj [("error_code", .num 999), ("error_msg", .str "boom")] ])]) }

/-- Response with a top-level error object whose code 999 is unmapped. -/
def respTopUnmapped : Response :=
  { status_code := 200, reason := .str "OK",
    body := some (.obj [("error", .obj
      [("error_code", .num 999), ("error_msg", .str "x")])]) }

/-- Response whose body is not valid JSON. -/
def respBadBody : Response :=
  { status_code := 200, reason := .str "OK", body := none }

/-- Spec §8 retry scenario table: `{100: retry/503}`. -/
def tblScenarioRetry : ErrorTable := [(100, ⟨"retry", 503⟩)]

/-- Response carrying embedded error code 100 (mapped to retry/503). -/
def respErr100 : Response :=
  { status_code := 200, reason := .str "OK",
    body := some (.obj [("error", .obj
      [("error_code", .num 100), ("error_msg", .str "retry me")])]) }

/-- A plain successful response with a `response` payload. -/
def respOkPayload : Response :=
  { status_code := 200, reason := .str "OK",
    body := some (.obj [("response", .arr [.num 1])]) }

/-- Retry-scenario stream: embedded error code 100 three times, then the
successful response. -/
def streamRetry3 : Nat → Response :=
  fun i => if i < 3 then respErr100 else respOkPayload

/-- Spec §8 skip scenario table: `{200: skip/404}`. -/
def tblScenarioSkip : ErrorTable := [(200, ⟨"skip", 404⟩)]

/-- Response carrying embedded error code 200 (mapped to skip/404). -/
def respErr200 : Response :=
  { status_code := 200, reason := .str "OK",
    body := some (.obj [("error", .obj
      [("error_code", .num 200), ("error_msg", .str "skip me")])]) }

/-- `respErr200` after the hooks: status 404, reason from the body. -/
def respErr200Eff : Response :=
  { status_code := 404, reason := .str "skip me", body := respErr200.body }

/-- Stream that always yields `respErr200`. -/
def streamSkip : Nat → Response := fun _ => respErr200

/-- Table in which the same HTTP status 404 is the match of a skip rule
and of a break rule: `{1: skip/404, 2: break/404}`. -/
def tblSkipBreak404 : ErrorTable := [(1, ⟨"skip", 404⟩), (2, ⟨"break", 404⟩)]

/-- Plain 404 transport response with an empty-object body (no embedded
errors, so the hooks leave it unchanged). -/
def resp404 : Response :=
  { status_code := 404, reason := .str "Not Found", body := some (.obj []) }

/-- Stream that always yields `resp404`. -/
def stream404 : Nat → Response := fun _ => resp404

/-- Spec §8 break scenario table: `{300: break/400}`. -/
def tblScenarioBreak : ErrorTable := [(300, ⟨"break", 400⟩)]

/-- Response carrying embedded error code 300 (mapped to break/400). -/
def respErr300 : Response :=
  { status_code := 200, reason := .str "OK",
    body := some (.obj [("error", .obj
      [("error_code", .num 300), ("error_msg", .str "fatal")])]) }

/-- `respErr300` after the hooks: status 400, reason from the body. -/
def respErr300Eff : Response :=
  { status_code := 400, reason := .str "fatal", body := respErr300.body }

/-- Stream that always yields `respErr300`. -/
def streamBreak : Nat → Response := fun _ => respErr300

/-- Plain 503 transport response with an empty-object body. -/
def resp503 : Response :=
  { status_code := 503, reason := .str "Service Unavailable", body := some (.obj []) }

/-- Stream on which every attempt is retry-classified under
`tblScenarioRetry` (transport status 503 directly). -/
def stream503 : Nat → Response := fun _ => resp503

/-- A successful response whose body has no error fields. -/
def respPlainOk : Response :=
  { status_code := 200, reason := .str "OK", body := some (.obj []) }

/-- Successful response whose body lacks the `response` key. -/
def respNoResponseKey : Response :=
  { status_code := 200, reason := .str "OK",
    body := some (.obj [("foo", .null)]) }

/-- Stream that always yields `respNoResponseKey`. -/
def streamNoResponseKey : Nat → Response := fun _ => respNoResponseKey

/-- Successful response whose `response` object lacks the `items` key. -/
def respNoItems : Response :=
  { status_code := 200, reason := .str "OK",
    body := some (.obj [("response", .obj [("count", .num 0)])]) }

/-- Stream that always yields `respNoItems`. -/
def streamNoItems : Nat → Response := fun _ => respNoItems

/-- Table mapping three different codes, with three different actions, all
to the same HTTP status 418. -/
def tblAll418 : ErrorTable :=
  [(1, ⟨"skip", 418⟩), (2, ⟨"break", 418⟩), (3, ⟨"retry", 418⟩)]

/-- Plain 418 transport response with an empty-object body. -/
def resp418 : Response :=
  { status_code := 418, reason := .str "teapot", body := some (.obj []) }

/-- Table `{1: skip/404, 2: break/400, 3: retry/503}` for the embedded
severity-order contrast. -/
def tblThreeActions : ErrorTable :=
  [(1, ⟨"skip", 404⟩), (2, ⟨"break", 400⟩), (3, ⟨"retry", 503⟩)]

/-- Response embedding a skip error first, a retry error second and a
break error last. -/
def respSkipRetryBreak : Response :=
  { status_code := 200, reason := .str "OK",
    body := some (.obj [("execute_errors", .arr
      [ .obj [("error_code", .num 1), ("error_msg", .str "skipmsg")]
      , .obj [("error_code", .num 3), ("error_msg", .str "retrymsg")]
      , .obj [("error_code", .num 2), ("error_msg", .str "breakmsg")] ])]) }

/-! ### Helper lemmas about the dispatch loop -/

/-- The only `sleepRetry` a step can produce carries the wait
`backoff_factor * 2 ** retries` computed after the increment. -/
theorem classifyStep_sleepRetry_wait {t : ErrorTable} {b : ℚ} {retries : Nat}
    {resp : Response} {w : ℚ}
    (h : classifyStep t b retries resp = .sleepRetry w) :
    w = b * 2 ^ (retries + 1) := by
  unfold classifyStep at h
  cases happ : applyHooks t resp with
  | error e =>
    rw [happ] at h
    exact StepOut.noConfusion h
  | ok r =>
    rw [happ] at h
    dsimp only at h
    split_ifs at h with h1 h2 h3 h4
    all_goals injection h with h'
    all_goals exact h'.symm

/-- A step that classifies into the skip set returns `None`. -/
theorem classifyStep_skip {t : ErrorTable} {b : ℚ} {retries : Nat}
    {resp r : Response} (hh : applyHooks t resp = .ok r)
    (h4 : 400 ≤ r.status_code) (h6 : r.status_code < 600)
    (hs : r.status_code ∈ matchedSet t "skip") :
    classifyStep t b retries resp = .done .noResult := by
  unfold classifyStep
  rw [hh]
  dsimp only
  rw [if_pos ⟨h4, h6⟩, if_pos hs]

/-- A step that misses the skip set but hits the break set raises
`SystemExit`. -/
theorem classifyStep_break {t : ErrorTable} {b : ℚ} {retries : Nat}
    {resp r : Response} (hh : applyHooks t resp = .ok r)
    (h4 : 400 ≤ r.status_code) (h6 : r.status_code < 600)
    (hs : r.status_code ∉ matchedSet t "skip")
    (hbr : r.status_code ∈ matchedSet t "break") :
    classifyStep t b retries resp = .done (.exc (.systemExit none)) := by
  unfold classifyStep
  rw [hh]
  dsimp only
  rw [if_pos ⟨h4, h6⟩, if_neg hs, if_pos hbr]

/-- A step that misses the skip and break sets but hits the retry set
sleeps and loops. -/
theorem classifyStep_retry {t : ErrorTable} {b : ℚ} {retries : Nat}
    {resp r : Response} (hh : applyHooks t resp = .ok r)
    (h4 : 400 ≤ r.status_code) (h6 : r.status_code < 600)
    (hs : r.status_code ∉ matchedSet t "skip")
    (hbr : r.status_code ∉ matchedSet t "break")
    (hrt : r.status_code ∈ matchedSet t "retry") :
    classifyStep t b retries resp = .sleepRetry (b * 2 ^ (retries + 1)) := by
  unfold classifyStep
  rw [hh]
  dsimp only
  rw [if_pos ⟨h4, h6⟩, if_neg hs, if_neg hbr, if_pos hrt]

/-- A loop whose very first step is terminal ends after one attempt with
no sleep. -/
theorem retryWrapper_first_done {t : ErrorTable} {b : ℚ}
    {stream : Nat → Response} {o : DispatchOutcome} (fuel : Nat)
    (h : classifyStep t b 0 (stream 0) = .done o) :
    retryWrapper t b stream (fuel + 1) = ⟨o, 1, []⟩ := by
  simp [retryWrapper, retryLoop, h]

/-- Shape of the delay trace: started from counter `retries`, the slept
delays are `b * 2 ^ n` for `n = retries + 1, retries + 2, ...`. -/
theorem retryLoop_delays (t : ErrorTable) (b : ℚ) (stream : Nat → Response) :
    ∀ (fuel idx retries : Nat) (acc : List ℚ), ∃ k,
      (retryLoop t b stream fuel idx retries acc).delays
        = acc.reverse ++ (List.range' (retries + 1) k).map (fun n => b * 2 ^ n) := by
  intro fuel
  induction fuel with
  | zero =>
    intro idx retries acc
    exact ⟨0, by simp [retryLoop]⟩
  | succ m ih =>
    intro idx retries acc
    cases hstep : classifyStep t b retries (stream idx) with
    | done o =>
      exact ⟨0, by simp [retryLoop, hstep]⟩
    | sleepRetry w =>
      obtain ⟨k, hk⟩ := ih (idx + 1) (retries + 1) (w :: acc)
      refine ⟨k + 1, ?_⟩
      have hw : w = b * 2 ^ (retries + 1) := classifyStep_sleepRetry_wait hstep
      have hloop : retryLoop t b stream (m + 1) idx retries acc
          = retryLoop t b stream m (idx + 1) (retries + 1) (w :: acc) := by
        simp [retryLoop, hstep]
      rw [hloop, hk, hw, List.range'_succ]
      simp

/-- The delay trace of a whole dispatch is `[b*2^1, b*2^2, ...]`. -/
theorem retryWrapper_delays (t : ErrorTable) (b : ℚ) (stream : Nat → Response)
    (fuel : Nat) :
    (retryWrapper t b stream fuel).delays
      = (List.range' 1 (retryWrapper t b stream fuel).delays.length).map
          (fun n => b * 2 ^ n) := by
  obtain ⟨k, hk⟩ := retryLoop_delays t b stream fuel 0 0 []
  have hk' : (retryWrapper t b stream fuel).delays
      = (List.range' 1 k).map (fun n => b * 2 ^ n) := by simpa using hk
  rw [hk']
  simp [List.length_range']

/-- With a positive backoff factor the delay trace strictly increases. -/
theorem retryWrapper_delays_chain (t : ErrorTable) (b : ℚ)
    (stream : Nat → Response) (fuel : Nat) (hb : 0 < b) :
    ((retryWrapper t b stream fuel).delays).Chain' (· < ·) := by
  rw [retryWrapper_delays t b stream fuel]
  refine List.Pairwise.chain' ?_
  rw [List.pairwise_map]
  refine (List.pairwise_lt_range' 1 _).imp ?_
  intro i j hij
  have h2 : (2 : ℚ) ^ i < 2 ^ j := pow_lt_pow_right₀ (by norm_num) hij
  exact mul_lt_mul_of_pos_left h2 hb

/-- On the all-retry stream the loop never leaves its `while` loop: any
amount of fuel is consumed with the outcome still `running`. -/
theorem retryLoop_stream503_running :
    ∀ (fuel : Nat) (b : ℚ) (idx retries : Nat) (acc : List ℚ),
      (retryLoop tblScenarioRetry b stream503 fuel idx retries acc).outcome
        = .running := by
  intro fuel
  induction fuel with
  | zero => intro b idx retries acc; rfl
  | succ m ih =>
    intro b idx retries acc
    have hstep : classifyStep tblScenarioRetry b retries (stream503 idx)
        = .sleepRetry (b * 2 ^ (retries + 1)) := rfl
    have hloop : retryLoop tblScenarioRetry b stream503 (m + 1) idx retries acc
        = retryLoop tblScenarioRetry b stream503 m (idx + 1) (retries + 1)
            (b * 2 ^ (retries + 1) :: acc) := by
      simp [retryLoop, hstep]
    rw [hloop]
    exact ih b (idx + 1) (retries + 1) _

/-! ### The claims -/

/-- Claim C1.  The claim states the tiered priority Break, then first
Retry, then first Skip holds for all permutations of the embedded error
list.  The code violates it: its retry and skip scans test and use the
leftover loop variables, i.e. the LAST error of the list.  On the table
`{1: retry/503, 2: skip/404}` and the list `[code 1 (retry), code 2
(skip)]` the interceptor yields 404 (the last, skip-classified error)
where the specified scan yields 503 (the first retry-classified error). -/
theorem claim_C1 :
    handleExecuteErrors tblRetrySkip respTwoErrs
      = .ok { respTwoErrs with status_code := 404, reason := .str "second skip" }
    ∧ specTieredScan tblRetrySkip
        [(.num 1, .str "first retry"), (.num 2, .str "second skip")]
        = some (503, .str "first retry")
    ∧ (404 : Int) ≠ 503 :=
  ⟨rfl, rfl, by decide⟩

/-- Claim C2.  The claim states an embedded error code absent from the
table makes classification fail fatally and is never silently defaulted.
The code violates it: the table lookup raises `KeyError`, which the
interceptor's `except KeyError: return r` catches, returning the response
with its status unchanged (200 here). -/
theorem claim_C2 :
    handleExecuteErrors tblRetryOnly respUnmapped = .ok respUnmapped
    ∧ respUnmapped.status_code = 200 :=
  ⟨rfl, rfl⟩

/-- Claim C3.  The claim states an unmapped top-level error code makes
the interceptor raise an unexpected-state fault rather than return the
response unchanged.  The code indeed executes `assert False, "Unexpected
err_code"`, but the `finally: return r` clause discards the in-flight
`AssertionError` and returns the response unchanged. -/
theorem claim_C3 :
    handleApiErrors tblRetryOnly respTopUnmapped = respTopUnmapped
    ∧ handleApiErrorsTry tblRetryOnly respTopUnmapped
        = .error (.assertionError "Unexpected err_code") :=
  ⟨rfl, rfl⟩

/-- Claim C7.  The claim states both interceptors are silent no-ops on
malformed JSON bodies.  `_handle_api_errors` is (its `finally: return r`
swallows the decode error), but `_handle_execute_errors` catches only
`KeyError`, so on a body that fails JSON decoding it propagates the
decode error instead of returning the response. -/
theorem claim_C7 :
    handleExecuteErrors tblRetryOnly respBadBody = .error .jsonDecodeError
    ∧ handleApiErrors tblRetryOnly respBadBody = respBadBody :=
  ⟨rfl, rfl⟩

/-- Claim C4.  The delay slept before the n-th retry (counting retries
from 1, as the claim's own scenario fixes: the first delay with factor
0.09 is 0.18 = 0.09 * 2^1, because the code increments `retries` before
computing the wait) is `backoff_factor * 2 ^ n`; for a positive factor
the delays strictly increase; and on the table `{100: retry/503}` with
factor 0.09 and a stream that is retry-classified three times then
successful, the loop retries exactly 3 times with delays 0.18, 0.36,
0.72 and returns the successful response on the 4th attempt. -/
theorem claim_C4 :
    (∀ (t : ErrorTable) (b : ℚ) (stream : Nat → Response) (fuel : Nat),
        (retryWrapper t b stream fuel).delays
          = (List.range' 1 (retryWrapper t b stream fuel).delays.length).map
              (fun n => b * 2 ^ n)
        ∧ (0 < b → ((retryWrapper t b stream fuel).delays).Chain' (· < ·)))
    ∧ retryWrapper tblScenarioRetry (9 / 100) streamRetry3 10
        = ⟨.success respOkPayload, 4, [18 / 100, 36 / 100, 72 / 100]⟩ := by
  constructor
  · intro t b stream fuel
    exact ⟨retryWrapper_delays t b stream fuel,
           retryWrapper_delays_chain t b stream fuel⟩
  · have h : retryWrapper tblScenarioRetry (9 / 100) streamRetry3 10
        = ⟨.success respOkPayload, 4,
            [(9 : ℚ) / 100 * 2 ^ 1, (9 : ℚ) / 100 * 2 ^ 2, (9 : ℚ) / 100 * 2 ^ 3]⟩ := rfl
    have hd : [(9 : ℚ) / 100 * 2 ^ 1, (9 : ℚ) / 100 * 2 ^ 2, (9 : ℚ) / 100 * 2 ^ 3]
        = [(18 : ℚ) / 100, 36 / 100, 72 / 100] := by norm_num
    rw [h, hd]

/-- Witness for C4: the scenario's delay trace is strictly increasing. -/
theorem claim_C4_witness :
    ((retryWrapper tblScenarioRetry (9 / 100) streamRetry3 10).delays).Chain'
      (· < ·) :=
  (claim_C4.1 tblScenarioRetry (9 / 100) streamRetry3 10).2 (by norm_num)

/-- Claim C5.  Whenever the effective status of the first attempt is an
HTTP error matching a skip rule, the loop returns `None` after exactly
one attempt with no sleep, and each domain method turns that into an
empty list for its caller. -/
theorem claim_C5 :
    ∀ (t : ErrorTable) (b : ℚ) (stream : Nat → Response) (fuel : Nat)
      (r : Response),
      applyHooks t (stream 0) = .ok r →
      400 ≤ r.status_code → r.status_code < 600 →
      r.status_code ∈ matchedSet t "skip" →
      retryWrapper t b stream (fuel + 1) = ⟨.noResult, 1, []⟩
      ∧ execute t stream (fuel + 1) = .ok (.arr [])
      ∧ get_users_ids t stream (fuel + 1) = .ok (.arr [])
      ∧ get_friends t stream (fuel + 1) = .ok (.arr []) := by
  intro t b stream fuel r hh h4 h6 hs
  have hloop : ∀ b' : ℚ, retryWrapper t b' stream (fuel + 1) = ⟨.noResult, 1, []⟩ :=
    fun b' => retryWrapper_first_done fuel (classifyStep_skip hh h4 h6 hs)
  refine ⟨hloop b, ?_, ?_, ?_⟩
  · simp [execute, hloop (9 / 100)]
  · simp [get_users_ids, hloop (9 / 100)]
  · simp [get_friends, hloop (9 / 100)]

/-- Witness for C5: the spec's skip scenario, table `{200: skip/404}`
with embedded error code 200 on every attempt. -/
theorem claim_C5_witness :
    retryWrapper tblScenarioSkip 1 streamSkip 1 = ⟨.noResult, 1, []⟩
    ∧ execute tblScenarioSkip streamSkip 1 = .ok (.arr [])
    ∧ get_users_ids tblScenarioSkip streamSkip 1 = .ok (.arr [])
    ∧ get_friends tblScenarioSkip streamSkip 1 = .ok (.arr []) :=
  claim_C5 tblScenarioSkip 1 streamSkip 0 respErr200Eff rfl (by decide)
    (by decide) (by decide)

/-- Counterexample to C6 as stated: on the table `{1: skip/404,
2: break/404}` the effective status 404 matches an ErrorRule with action
Break, yet the loop returns `None` (the skip check runs first) instead of
terminating the process. -/
theorem claim_C6_counterexample :
    (404 : Int) ∈ matchedSet tblSkipBreak404 "break"
    ∧ retryWrapper tblSkipBreak404 1 stream404 5 = ⟨.noResult, 1, []⟩
    ∧ ((retryWrapper tblSkipBreak404 1 stream404 5).outcome).isSystemExit
        = false :=
  ⟨by decide, rfl, rfl⟩

/-- Claim C6, amended: whenever the effective status of the first attempt
is an HTTP error matching a Break rule and matching no Skip rule (the
skip check runs first), the loop raises `SystemExit` — terminating the
whole process — after exactly one attempt, with no retry and no sleep. -/
theorem claim_C6 :
    ∀ (t : ErrorTable) (b : ℚ) (stream : Nat → Response) (fuel : Nat)
      (r : Response),
      applyHooks t (stream 0) = .ok r →
      400 ≤ r.status_code → r.status_code < 600 →
      r.status_code ∈ matchedSet t "break" →
      r.status_code ∉ matchedSet t "skip" →
      retryWrapper t b stream (fuel + 1) = ⟨.exc (.systemExit none), 1, []⟩ :=
  fun _ _ _ fuel _ hh h4 h6 hbr hs =>
    retryWrapper_first_done fuel (classifyStep_break hh h4 h6 hs hbr)

/-- Witness for C6: the spec's break scenario, table `{300: break/400}`
with embedded error code 300. -/
theorem claim_C6_witness :
    retryWrapper tblScenarioBreak 1 streamBreak 1
      = ⟨.exc (.systemExit none), 1, []⟩ :=
  claim_C6 tblScenarioBreak 1 streamBreak 0 respErr300Eff rfl (by decide)
    (by decide) (by decide) (by decide)

/-- Claim C10.  In the dispatch loop the disposition checks run in the
fixed order Skip, Break, Retry, so Skip pre-empts Break pre-empts Retry
for any status shared between rules of different actions; concretely, on
`{1: skip/418, 2: break/418, 3: retry/418}` a 418 response is
skip-classified although it matches a break rule and a retry rule.  The
embedded-error tiered scan uses the reverse severity order: on
`{1: skip/404, 2: break/400, 3: retry/503}` with the break error listed
last it still wins. -/
theorem claim_C10 :
    (∀ (t : ErrorTable) (b : ℚ) (retries : Nat) (resp r : Response),
        applyHooks t resp = .ok r →
        400 ≤ r.status_code → r.status_code < 600 →
        ((r.status_code ∈ matchedSet t "skip" →
            classifyStep t b retries resp = .done .noResult)
         ∧ (r.status_code ∉ matchedSet t "skip" →
            r.status_code ∈ matchedSet t "break" →
            classifyStep t b retries resp = .done (.exc (.systemExit none)))
         ∧ (r.status_code ∉ matchedSet t "skip" →
            r.status_code ∉ matchedSet t "break" →
            r.status_code ∈ matchedSet t "retry" →
            classifyStep t b retries resp = .sleepRetry (b * 2 ^ (retries + 1)))))
    ∧ classifyStep tblAll418 1 0 resp418 = .done .noResult
    ∧ (418 : Int) ∈ matchedSet tblAll418 "break"
    ∧ (418 : Int) ∈ matchedSet tblAll418 "retry"
    ∧ handleExecuteErrors tblThreeActions respSkipRetryBreak
        = .ok { respSkipRetryBreak with
                  status_code := 400, reason := .str "breakmsg" } := by
  refine ⟨?_, rfl, by decide, by decide, rfl⟩
  intro t b retries resp r hh h4 h6
  exact ⟨fun hs => classifyStep_skip hh h4 h6 hs,
         fun hs hbr => classifyStep_break hh h4 h6 hs hbr,
         fun hs hbr hrt => classifyStep_retry hh h4 h6 hs hbr hrt⟩

/-- Witness for C10: under `{1: skip/404, 2: break/404}` a 404 response
(matching both a skip and a break rule) is skip-classified. -/
theorem claim_C10_witness :
    classifyStep tblSkipBreak404 1 0 resp404 = .done .noResult :=
  (claim_C10.1 tblSkipBreak404 1 0 resp404 resp404 rfl (by decide)
    (by decide)).1 (by decide)

/-- Claim C8.  No maximum attempt count exists: on a stream whose every
attempt is retry-classified, any fuel bound `n` is exhausted with the
loop still running (so it performs more than `n` attempts for every
`n`); and a loop iteration is terminal only when a hook exception
propagates, or on a success status, a Skip match, a Break match, or an
unclassified error status. -/
theorem claim_C8 :
    (∀ (n : Nat) (b : ℚ),
        (retryWrapper tblScenarioRetry b stream503 n).outcome = .running)
    ∧ (∀ (t : ErrorTable) (b : ℚ) (retries : Nat) (resp : Response)
         (o : DispatchOutcome),
        classifyStep t b retries resp = .done o →
        (∃ e, applyHooks t resp = .error e ∧ o = .exc e)
        ∨ (∃ r, applyHooks t resp = .ok r ∧
            ((o = .success r ∧ ¬(400 ≤ r.status_code ∧ r.status_code < 600))
             ∨ (o = .noResult ∧ (400 ≤ r.status_code ∧ r.status_code < 600)
                ∧ r.status_code ∈ matchedSet t "skip")
             ∨ (o = .exc (.systemExit none)
                ∧ (400 ≤ r.status_code ∧ r.status_code < 600)
                ∧ r.status_code ∉ matchedSet t "skip"
                ∧ r.status_code ∈ matchedSet t "break")
             ∨ (o = .exc (.systemExit (some "HTTPError"))
                ∧ (400 ≤ r.status_code ∧ r.status_code < 600)
                ∧ r.status_code ∉ matchedSet t "skip"
                ∧ r.status_code ∉ matchedSet t "break"
                ∧ r.status_code ∉ matchedSet t "retry")))) := by
  constructor
  · intro n b
    exact retryLoop_stream503_running n b 0 0 []
  · intro t b retries resp o h
    unfold classifyStep at h
    cases happ : applyHooks t resp with
    | error e =>
      rw [happ] at h
      dsimp only at h
      injection h with h'
      exact Or.inl ⟨e, rfl, h'.symm⟩
    | ok r =>
      rw [happ] at h
      dsimp only at h
      refine Or.inr ⟨r, rfl, ?_⟩
      by_cases h1 : 400 ≤ r.status_code ∧ r.status_code < 600
      · rw [if_pos h1] at h
        by_cases h2 : r.status_code ∈ matchedSet t "skip"
        · rw [if_pos h2] at h
          injection h with h'
          exact Or.inr (Or.inl ⟨h'.symm, h1, h2⟩)
        · rw [if_neg h2] at h
          by_cases h3 : r.status_code ∈ matchedSet t "break"
          · rw [if_pos h3] at h
            injection h with h'
            exact Or.inr (Or.inr (Or.inl ⟨h'.symm, h1, h2, h3⟩))
          · rw [if_neg h3] at h
            by_cases h4 : r.status_code ∈ matchedSet t "retry"
            · rw [if_pos h4] at h
              exact StepOut.noConfusion h
            · rw [if_neg h4] at h
              injection h with h'
              exact Or.inr (Or.inr (Or.inr ⟨h'.symm, h1, h2, h3, h4⟩))
      · rw [if_neg h1] at h
        injection h with h'
        exact Or.inl ⟨h'.symm, h1⟩

/-- Witness for C8: a terminal step on a plain 200 response is a success
exit. -/
theorem claim_C8_witness :
    (∃ e, applyHooks tblScenarioRetry respPlainOk = .error e
        ∧ DispatchOutcome.success respPlainOk = .exc e)
    ∨ (∃ r, applyHooks tblScenarioRetry respPlainOk = .ok r ∧
        ((DispatchOutcome.success respPlainOk = .success r
            ∧ ¬(400 ≤ r.status_code ∧ r.status_code < 600))
         ∨ (DispatchOutcome.success respPlainOk = .noResult
            ∧ (400 ≤ r.status_code ∧ r.status_code < 600)
            ∧ r.status_code ∈ matchedSet tblScenarioRetry "skip")
         ∨ (DispatchOutcome.success respPlainOk = .exc (.systemExit none)
            ∧ (400 ≤ r.status_code ∧ r.status_code < 600)
            ∧ r.status_code ∉ matchedSet tblScenarioRetry "skip"
            ∧ r.status_code ∈ matchedSet tblScenarioRetry "break")
         ∨ (DispatchOutcome.success respPlainOk
              = .exc (.systemExit (some "HTTPError"))
            ∧ (400 ≤ r.status_code ∧ r.status_code < 600)
            ∧ r.status_code ∉ matchedSet tblScenarioRetry "skip"
            ∧ r.status_code ∉ matchedSet tblScenarioRetry "break"
            ∧ r.status_code ∉ matchedSet tblScenarioRetry "retry"))) :=
  claim_C8.2 tblScenarioRetry 1 0 respPlainOk (.success respPlainOk) rfl

/-- Claim C9.  On a successful response whose body (a JSON object) lacks
the expected field path, every domain method raises: `execute` lets the
`KeyError` escape uncaught, `get_users_ids` and `get_friends` convert it
to `SystemExit`; in particular `get_friends` on a success response whose
`response` object lacks `items` raises `SystemExit`. -/
theorem claim_C9 :
    (∀ (t : ErrorTable) (stream : Nat → Response) (fuel : Nat)
       (r : Response) (fields : List (String × Json)),
        (retryWrapper t (9 / 100) stream fuel).outcome = .success r →
        r.body = some (.obj fields) →
        fields.lookup "response" = none →
        execute t stream fuel = .exc .keyError
        ∧ get_users_ids t stream fuel
            = .exc (.systemExit
                (some "Unexpected keys in response. `response` are Expected"))
        ∧ get_friends t stream fuel
            = .exc (.systemExit
                (some "Unexpected keys in response. `response.items` are Expected")))
    ∧ (∀ (t : ErrorTable) (stream : Nat → Response) (fuel : Nat)
         (r : Response) (fields gfields : List (String × Json)),
        (retryWrapper t (9 / 100) stream fuel).outcome = .success r →
        r.body = some (.obj fields) →
        fields.lookup "response" = some (.obj gfields) →
        gfields.lookup "items" = none →
        get_friends t stream fuel
          = .exc (.systemExit
              (some "Unexpected keys in response. `response.items` are Expected"))) := by
  constructor
  · intro t stream fuel r fields hout hbody hlook
    refine ⟨?_, ?_, ?_⟩
    · simp [execute, executeExtract, hout, Response.json, hbody, Json.get, hlook]
    · simp [get_users_ids, getUsersExtract, hout, Response.json, hbody, Json.get, hlook]
    · simp [get_friends, getFriendsExtract, hout, Response.json, hbody, Json.get, hlook]
  · intro t stream fuel r fields gfields hout hbody hlook hlook2
    simp [get_friends, getFriendsExtract, hout, Response.json, hbody, Json.get, hlook, hlook2]

/-- Witness for C9: a success body `{"foo": null}` (no `response` key)
crashes all three methods, and a success body `{"response": {"count":
0}}` (no `items` key) crashes `get_friends`. -/
theorem claim_C9_witness :
    (execute ([] : ErrorTable) streamNoResponseKey 1 = .exc .keyError
     ∧ get_users_ids ([] : ErrorTable) streamNoResponseKey 1
         = .exc (.systemExit
             (some "Unexpected keys in response. `response` are Expected"))
     ∧ get_friends ([] : ErrorTable) streamNoResponseKey 1
         = .exc (.systemExit
             (some "Unexpected keys in response. `response.items` are Expected")))
    ∧ get_friends ([] : ErrorTable) streamNoItems 1
        = .exc (.systemExit
            (some "Unexpected keys in response. `response.items` are Expected")) :=
  ⟨claim_C9.1 ([] : ErrorTable) streamNoResponseKey 1 respNoResponseKey
      [("foo", .null)] rfl rfl rfl,
   claim_C9.2 ([] : ErrorTable) streamNoItems 1 respNoItems
      [("response", .obj [("count", .num 0)])] [("count", .num 0)] rfl rfl rfl rfl⟩

end VkApi

